import Mathlib

/-!
Verification of the batch orchestration layer of the YT_Scraper repository
(`main.py`, class `YouTubeScraperInterface`).

The extraction engine (`AdvancedYouTubeExtractor` from `yt_data_extractor`) is an
external collaborator: it is modelled as an oracle (`SessionOracle`) that fixes, for
one deterministic environment, whether each lifecycle step raises and which record
each URL extraction produces.  The orchestrator methods are embedded as pure
functions from the oracle and the interface state to a boolean outcome, the updated
interface state, and the trace of collaborator calls (`Event`s) they perform, which
lets the lifecycle claims (session stopped, writer invoked, ...) be stated as
properties of the trace.
-/

namespace YTScraper

/-- The outcome of extracting one Target: a data record for a URL, either clean or
carrying an `error` field (mirrors the dict returned by `extract_youtube_data`,
inspected via `data.get('error')`). -/
structure Record where
  url : String
  error : Option String
deriving DecidableEq, Repr

/-- One observable call made by the orchestrator on its collaborators.  `construct`
is `AdvancedYouTubeExtractor(...)` succeeding, `sessionStart` is `start()`,
`extract` is `extract_youtube_data(url)`, `write` is the Output Writer receiving a
ResultSet (`save_clean_final_output` / the write inside
`extract_and_save_clean_data_from_urls`), `stop` is `stop()`.  The `Nat` identifies
which extractor object the call is made on. -/
inductive Event where
  | construct (id : Nat)
  | sessionStart (id : Nat)
  | extract (id : Nat) (url : String)
  | write (records : List Record) (dest : String)
  | stop (id : Nat)
deriving DecidableEq, Repr

/-- Deterministic environment for one run: which collaborator steps raise, and the
record each URL extraction yields.  `unexpected_fault_at` injects an unexpected
exception just before the Target at that index is processed during batch
iteration. -/
structure SessionOracle where
  construct_raises : Bool
  start_raises : Bool
  extract_raises : String → Bool
  extract_result : String → Record
  save_raises : Bool
  unexpected_fault_at : Option Nat

/-- State of a `YouTubeScraperInterface` object: the two configuration flags and
the `self.extractor` field, `none` right after `__init__`, otherwise the id of the
extractor object it references. -/
structure YouTubeScraperInterface where
  headless : Bool
  enable_anti_detection : Bool
  extractor : Option Nat
deriving DecidableEq, Repr

/-- `YouTubeScraperInterface.__init__`: stores the flags and sets
`self.extractor = None`. -/
def YouTubeScraperInterface.init (headless enable_anti_detection : Bool) :
    YouTubeScraperInterface :=
  { headless := headless, enable_anti_detection := enable_anti_detection,
    extractor := none }

/-- The `finally` clause shared by `scrape_single_url` and `scrape_multiple_urls`:
`if self.extractor: await self.extractor.stop()`.  Appends a `stop` call on the
currently referenced extractor, if any, and returns the call's result triple. -/
def finallyStop (st : YouTubeScraperInterface) (evs : List Event) (res : Bool) :
    Bool × YouTubeScraperInterface × List Event :=
  match st.extractor with
  | some j => (res, st, evs ++ [Event.stop j])
  | none => (res, st, evs)

/-- The record a Target contributes during batch iteration: a per-Target
extraction failure is caught and converted into an error-bearing record, otherwise
the extraction result is used as-is. -/
def recordFor (σ : SessionOracle) (u : String) : Record :=
  if σ.extract_raises u then { url := u, error := some "extraction failed" }
  else σ.extract_result u

/-- Batch iteration over the Targets starting at index `i`: one record per Target
in input order, stopping with `none` (an escaping exception) if the unexpected
fault fires at the current index.  Also returns the `extract` calls performed. -/
def extractBatchLoop (σ : SessionOracle) (id : Nat) :
    Nat → List String → Option (List Record) × List Event
  | _, [] => (some [], [])
  | i, u :: rest =>
    if σ.unexpected_fault_at = some i then (none, [])
    else
      match extractBatchLoop σ id (i + 1) rest with
      | (some rs, evs) => (some (recordFor σ u :: rs), Event.extract id u :: evs)
      | (none, evs) => (none, Event.extract id u :: evs)

/-- Modelled from the spec: the extractor method
`extract_and_save_clean_data_from_urls` lives in the `yt_data_extractor` module,
which is not under src/.  Per the spec it iterates the Targets in input order,
converts each per-Target extraction failure into an error-bearing Record instead
of aborting, and after all Targets are processed hands the full ResultSet to the
Output Writer in one call; only batch-level faults (an unexpected fault
mid-iteration, or the write itself failing) escape as exceptions, signalled here
by a `none` first component. -/
def extract_and_save_clean_data_from_urls (σ : SessionOracle) (id : Nat)
    (urls : List String) (output_file : String) :
    Option (List Record) × List Event :=
  match extractBatchLoop σ id 0 urls with
  | (none, evs) => (none, evs)
  | (some rs, evs) =>
    if σ.save_raises then (none, evs ++ [Event.write rs output_file])
    else (some rs, evs ++ [Event.write rs output_file])

/-- `YouTubeScraperInterface.scrape_single_url`: construct an extractor, start it,
extract once, return `False` if the record carries an error, otherwise hand the
single-element ResultSet to the writer and return `True`; any raise is caught and
yields `False`; the `finally` clause stops `self.extractor` if set. -/
def scrape_single_url (σ : SessionOracle) (st : YouTubeScraperInterface) (id : Nat)
    (url : String) (output_file : String) :
    Bool × YouTubeScraperInterface × List Event :=
  if σ.construct_raises then
    finallyStop st [] false
  else
    let st' := { st with extractor := some id }
    if σ.start_raises then
      finallyStop st' [Event.construct id, Event.sessionStart id] false
    else
      let evs := [Event.construct id, Event.sessionStart id, Event.extract id url]
      if σ.extract_raises url then finallyStop st' evs false
      else
        let data := σ.extract_result url
        if data.error.isSome then finallyStop st' evs false
        else
          let evs := evs ++ [Event.write [data] output_file]
          if σ.save_raises then finallyStop st' evs false
          else finallyStop st' evs true

/-- `YouTubeScraperInterface.scrape_multiple_urls`: construct an extractor, start
it, delegate to `extract_and_save_clean_data_from_urls`, return `True` unless an
exception escaped; the `finally` clause stops `self.extractor` if set. -/
def scrape_multiple_urls (σ : SessionOracle) (st : YouTubeScraperInterface)
    (id : Nat) (urls : List String) (output_file : String) :
    Bool × YouTubeScraperInterface × List Event :=
  if σ.construct_raises then
    finallyStop st [] false
  else
    let st' := { st with extractor := some id }
    if σ.start_raises then
      finallyStop st' [Event.construct id, Event.sessionStart id] false
    else
      match extract_and_save_clean_data_from_urls σ id urls output_file with
      | (none, evs2) =>
        finallyStop st' ([Event.construct id, Event.sessionStart id] ++ evs2) false
      | (some _, evs2) =>
        finallyStop st' ([Event.construct id, Event.sessionStart id] ++ evs2) true

/-- Python's `str.strip()`: remove leading and trailing whitespace. -/
def strip (s : String) : String :=
  ⟨((s.data.dropWhile Char.isWhitespace).reverse.dropWhile Char.isWhitespace).reverse⟩

/-- Python's `s.startswith('http')`: the first four characters are `http`. -/
def hasHttpScheme (s : String) : Bool :=
  match s.data with
  | 'h' :: 't' :: 't' :: 'p' :: _ => true
  | _ => false

/-- The URL filter of `scrape_from_file`:
`[line.strip() for line in f.readlines() if line.strip() and line.strip().startswith('http')]`. -/
def resolveTargets (lines : List String) : List String :=
  (lines.filter fun line => strip line != "" && hasHttpScheme (strip line)).map strip

/-- `YouTubeScraperInterface.scrape_from_file`: `fs = none` models a path for
which `os.path.exists` is false.  Returns the success flag, the interface state,
the collaborator calls, and the status messages printed on the paths the claims
distinguish. -/
def scrape_from_file (σ : SessionOracle) (st : YouTubeScraperInterface) (id : Nat)
    (fs : Option (List String)) (file_path output_file : String) :
    Bool × YouTubeScraperInterface × List Event × List String :=
  match fs with
  | none => (false, st, [], ["File not found: " ++ file_path])
  | some lines =>
    let urls := resolveTargets lines
    if urls.isEmpty then
      (false, st, [], ["No valid YouTube URLs found in " ++ file_path])
    else
      let r := scrape_multiple_urls σ st id urls output_file
      (r.1, r.2.1, r.2.2,
        ["Found " ++ toString urls.length ++ " URLs in " ++ file_path])

/-- Outcome categories of one `run_scraper` invocation as seen by `main`. -/
inductive RunOutcome where
  | batchCompleted (success : Bool)
  | interrupted
  | unexpectedError
deriving DecidableEq, Repr

/-- Exit-status mapping of `main`: `sys.exit(0 if success else 1)` for a completed
batch, `sys.exit(1)` on `KeyboardInterrupt`, `sys.exit(1)` on any other
exception. -/
def exit_status : RunOutcome → Nat
  | RunOutcome.batchCompleted true => 0
  | RunOutcome.batchCompleted false => 1
  | RunOutcome.interrupted => 1
  | RunOutcome.unexpectedError => 1

/-- Whether an event is a `stop` call. -/
def isStop : Event → Bool
  | Event.stop _ => true
  | _ => false

/-- Whether an event is a `write` (Output Writer) call. -/
def isWrite : Event → Bool
  | Event.write _ _ => true
  | _ => false

/-- Whether the injected unexpected fault fires while iterating `urls`. -/
def faultTriggers (σ : SessionOracle) (urls : List String) : Bool :=
  match σ.unexpected_fault_at with
  | some i => i < urls.length
  | none => false

/-- Whether the batch run hits a batch-level fault: construction or start raised,
an unexpected fault fired mid-iteration, or the write raised. -/
def batchFault (σ : SessionOracle) (urls : List String) : Bool :=
  σ.construct_raises || σ.start_raises || faultTriggers σ urls || σ.save_raises

/-- The stop calls the `finally` clause emits for a given `self.extractor`
value. -/
def stopEventsFor : Option Nat → List Event
  | some j => [Event.stop j]
  | none => []

/-- Environment in which every collaborator step succeeds and every extraction
yields a clean record. -/
def oracleOk : SessionOracle :=
  { construct_raises := false, start_raises := false,
    extract_raises := fun _ => false,
    extract_result := fun u => { url := u, error := none },
    save_raises := false, unexpected_fault_at := none }

/-- Environment in which every extraction reports an error-bearing record. -/
def oracleErr : SessionOracle :=
  { construct_raises := false, start_raises := false,
    extract_raises := fun _ => false,
    extract_result := fun u => { url := u, error := some "boom" },
    save_raises := false, unexpected_fault_at := none }

/-- Environment in which everything succeeds except the Output Writer, which
raises. -/
def oracleSaveFails : SessionOracle :=
  { construct_raises := false, start_raises := false,
    extract_raises := fun _ => false,
    extract_result := fun u => { url := u, error := none },
    save_raises := true, unexpected_fault_at := none }

/-- Environment in which extractor construction itself raises. -/
def oracleConstructFails : SessionOracle :=
  { construct_raises := true, start_raises := false,
    extract_raises := fun _ => false,
    extract_result := fun u => { url := u, error := none },
    save_raises := false, unexpected_fault_at := none }

/-- Environment in which extraction of exactly the URL `https://b` raises and
every other step succeeds. -/
def oracleMixed : SessionOracle :=
  { construct_raises := false, start_raises := false,
    extract_raises := fun u => u == "https://b",
    extract_result := fun u => { url := u, error := none },
    save_raises := false, unexpected_fault_at := none }

/-- Every event emitted by the batch loop is an `extract` call on the current
extractor. -/
lemma extractBatchLoop_events_extract (σ : SessionOracle) (id : Nat) :
    ∀ (urls : List String) (i : Nat),
      ∀ e ∈ (extractBatchLoop σ id i urls).2, ∃ u, e = Event.extract id u := by
  intro urls
  induction urls with
  | nil => intro i e he; simp [extractBatchLoop] at he
  | cons u rest ih =>
    intro i e he
    rw [extractBatchLoop] at he
    by_cases hf : σ.unexpected_fault_at = some i
    · simp [hf] at he
    · rw [if_neg hf] at he
      rcases hrec : extractBatchLoop σ id (i + 1) rest with ⟨o, evs⟩
      have hevs : ∀ e ∈ evs, ∃ u, e = Event.extract id u := by
        intro e' he'
        have := ih (i + 1) e'
        rw [hrec] at this
        exact this he'
      rw [hrec] at he
      cases o <;> simp only at he <;> rcases List.mem_cons.mp he with h | h
      · exact ⟨u, h⟩
      · exact hevs e h
      · exact ⟨u, h⟩
      · exact hevs e h

/-- The batch loop never calls `stop`. -/
lemma extractBatchLoop_countP_stop (σ : SessionOracle) (id : Nat)
    (urls : List String) (i : Nat) :
    ((extractBatchLoop σ id i urls).2).countP isStop = 0 := by
  rw [List.countP_eq_zero]
  intro e he
  rcases extractBatchLoop_events_extract σ id urls i e he with ⟨u, rfl⟩
  simp [isStop]

/-- The batch loop never calls the Output Writer. -/
lemma extractBatchLoop_filter_write (σ : SessionOracle) (id : Nat)
    (urls : List String) (i : Nat) :
    ((extractBatchLoop σ id i urls).2).filter isWrite = [] := by
  rw [List.filter_eq_nil_iff]
  intro e he
  rcases extractBatchLoop_events_extract σ id urls i e he with ⟨u, rfl⟩
  simp [isWrite]

/-- When the unexpected fault does not fire in the index window of the remaining
Targets, the batch loop yields exactly one record per Target, in input order. -/
lemma extractBatchLoop_no_fault (σ : SessionOracle) (id : Nat) :
    ∀ (urls : List String) (i : Nat),
      (∀ j, σ.unexpected_fault_at = some j → ¬(i ≤ j ∧ j < i + urls.length)) →
      extractBatchLoop σ id i urls =
        (some (urls.map (recordFor σ)), urls.map (Event.extract id)) := by
  intro urls
  induction urls with
  | nil => intro i _; rfl
  | cons u rest ih =>
    intro i h
    have hf : σ.unexpected_fault_at ≠ some i := fun hc =>
      h i hc ⟨Nat.le_refl i, by simp⟩
    have hrest := ih (i + 1) fun j hj hc =>
      h j hj (by simp only [List.length_cons]; omega)
    rw [extractBatchLoop, if_neg hf, hrest]
    rfl

/-- Whether the batch loop on `u :: rest` escapes is decided past the head once
the fault does not fire at the head index. -/
lemma extractBatchLoop_fst_cons (σ : SessionOracle) (id i : Nat) (u : String)
    (rest : List String) (hf : σ.unexpected_fault_at ≠ some i) :
    ((extractBatchLoop σ id i (u :: rest)).1 = none ↔
      (extractBatchLoop σ id (i + 1) rest).1 = none) := by
  rw [extractBatchLoop, if_neg hf]
  rcases extractBatchLoop σ id (i + 1) rest with ⟨o, evs⟩
  cases o <;> simp

/-- The batch loop escapes with an exception exactly when the unexpected fault
fires in the index window of the remaining Targets. -/
lemma extractBatchLoop_fst_none_iff (σ : SessionOracle) (id : Nat) :
    ∀ (urls : List String) (i : Nat),
      (extractBatchLoop σ id i urls).1 = none ↔
        ∃ j, σ.unexpected_fault_at = some j ∧ i ≤ j ∧ j < i + urls.length := by
  intro urls
  induction urls with
  | nil =>
    intro i
    constructor
    · intro h
      have h' : (some ([] : List Record) : Option (List Record)) = none := h
      simp at h'
    · rintro ⟨j, _, hij, hlt⟩
      simp only [List.length_nil] at hlt
      omega
  | cons u rest ih =>
    intro i
    by_cases hf : σ.unexpected_fault_at = some i
    · rw [extractBatchLoop, if_pos hf]
      refine ⟨fun _ => ⟨i, hf, Nat.le_refl i, by simp⟩, fun _ => rfl⟩
    · rw [extractBatchLoop_fst_cons σ id i u rest hf, ih (i + 1)]
      constructor
      · rintro ⟨j, hj, hij, hlt⟩
        refine ⟨j, hj, by omega, ?_⟩
        simp only [List.length_cons]
        omega
      · rintro ⟨j, hj, hij, hlt⟩
        have hne : j ≠ i := fun hc => hf (hc ▸ hj)
        simp only [List.length_cons] at hlt
        exact ⟨j, hj, by omega, by omega⟩

/-- The `resolveTargets` filter keeps a line exactly when its stripped form
starts with `http` (the nonblank test is subsumed, since `http` is nonempty). -/
lemma resolveTargets_eq_strip_filter (lines : List String) :
    resolveTargets lines = (lines.map strip).filter hasHttpScheme := by
  induction lines with
  | nil => rfl
  | cons l rest ih =>
    unfold resolveTargets at ih ⊢
    by_cases h : hasHttpScheme (strip l) = true
    · have hne : (strip l != "") = true := by
        rcases eq_or_ne (strip l) "" with he | hne'
        · exact absurd (he ▸ h) (by decide)
        · simpa using hne'
      simp only [List.filter_cons, List.map_cons, hne, h, Bool.and_self, if_true,
        List.map_cons]
      exact congrArg (strip l :: ·) ih
    · have h' : hasHttpScheme (strip l) = false := by simpa using h
      simp only [List.filter_cons, List.map_cons, h', Bool.and_false, if_false]
      exact ih

/-- A source whose stripped lines never start with `http` resolves to no
Targets. -/
lemma resolveTargets_eq_nil (lines : List String)
    (h : ∀ l ∈ lines, hasHttpScheme (strip l) = false) :
    resolveTargets lines = [] := by
  unfold resolveTargets
  rw [List.filter_eq_nil_iff.mpr, List.map_nil]
  intro l hl
  simp [h l hl]

/-- A trace made only of `extract` calls contains no writer call. -/
lemma filter_write_map_extract (id : Nat) (urls : List String) :
    ((urls.map (Event.extract id)).filter isWrite) = [] := by
  rw [List.filter_eq_nil_iff]
  intro e he
  rcases List.mem_map.mp he with ⟨u, _, rfl⟩
  simp [isWrite]

/-- The fault fires on `urls` iff its index lies within the batch window. -/
lemma faultTriggers_iff (σ : SessionOracle) (urls : List String) :
    faultTriggers σ urls = true ↔
      ∃ j, σ.unexpected_fault_at = some j ∧ 0 ≤ j ∧ j < 0 + urls.length := by
  unfold faultTriggers
  cases h : σ.unexpected_fault_at with
  | none => simp
  | some j => simp

/-- Without an unexpected fault mid-iteration, the batch delegate yields one
record per Target in input order and performs the single writer handoff; only
the writer raising makes it escape. -/
lemma extract_and_save_no_fault (σ : SessionOracle) (id : Nat)
    (urls : List String) (output_file : String)
    (hf : faultTriggers σ urls = false) :
    extract_and_save_clean_data_from_urls σ id urls output_file =
      ((if σ.save_raises then none else some (urls.map (recordFor σ))),
        urls.map (Event.extract id) ++
          [Event.write (urls.map (recordFor σ)) output_file]) := by
  have hnf : ∀ j, σ.unexpected_fault_at = some j →
      ¬(0 ≤ j ∧ j < 0 + urls.length) := by
    intro j hj hc
    have ht : faultTriggers σ urls = true := (faultTriggers_iff σ urls).mpr ⟨j, hj, hc⟩
    rw [ht] at hf
    exact Bool.true_eq_false.mp hf
  unfold extract_and_save_clean_data_from_urls
  rw [extractBatchLoop_no_fault σ id urls 0 hnf]
  by_cases hs : σ.save_raises <;> simp [hs]

/-- The batch delegate never calls `stop`. -/
lemma extract_and_save_countP_stop (σ : SessionOracle) (id : Nat)
    (urls : List String) (output_file : String) :
    ((extract_and_save_clean_data_from_urls σ id urls output_file).2).countP
      isStop = 0 := by
  have hstop := extractBatchLoop_countP_stop σ id urls 0
  unfold extract_and_save_clean_data_from_urls
  revert hstop
  rcases extractBatchLoop σ id 0 urls with ⟨o, evs⟩
  intro hstop
  simp only at hstop
  cases o with
  | none => simpa using hstop
  | some rs =>
    by_cases hs : σ.save_raises <;>
      simp [hs, List.countP_append, hstop, isStop]

/-- The batch delegate escapes exactly when the fault fires mid-iteration or
the writer raises. -/
lemma extract_and_save_fst_none_iff (σ : SessionOracle) (id : Nat)
    (urls : List String) (output_file : String) :
    ((extract_and_save_clean_data_from_urls σ id urls output_file).1 = none) ↔
      (faultTriggers σ urls || σ.save_raises) = true := by
  have hloop := extractBatchLoop_fst_none_iff σ id urls 0
  unfold extract_and_save_clean_data_from_urls
  revert hloop
  rcases extractBatchLoop σ id 0 urls with ⟨o, evs⟩
  intro hloop
  simp only at hloop
  cases o with
  | none =>
    have hft : faultTriggers σ urls = true :=
      (faultTriggers_iff σ urls).mpr (hloop.mp rfl)
    simp [hft]
  | some rs =>
    have hnf : faultTriggers σ urls = false := by
      rcases hb : faultTriggers σ urls with _ | _
      · rfl
      · rcases (faultTriggers_iff σ urls).mp hb with ⟨j, hj, hc⟩
        exact absurd (hloop.mpr ⟨j, hj, hc⟩) (by simp)
    by_cases hs : σ.save_raises <;> simp [hs, hnf]

/-- The last element of a nonempty-prefixed concatenation with a singleton. -/
lemma getLast?_cons_concat {α : Type} (a : α) (l : List α) (e : α) :
    (a :: (l ++ [e])).getLast? = some e := by
  rw [← List.cons_append, List.getLast?_concat]

/-- The `finally` clause passes the `try` block's result through unchanged. -/
lemma finallyStop_fst (st : YouTubeScraperInterface) (evs : List Event)
    (res : Bool) : (finallyStop st evs res).1 = res := by
  unfold finallyStop
  cases st.extractor <;> rfl

/-- The boolean `scrape_multiple_urls` returns is exactly the absence of a
batch-level fault. -/
lemma scrape_multiple_urls_fst (σ : SessionOracle)
    (st : YouTubeScraperInterface) (id : Nat) (urls : List String)
    (output_file : String) :
    (scrape_multiple_urls σ st id urls output_file).1 =
      !batchFault σ urls := by
  unfold batchFault
  by_cases hc : σ.construct_raises
  · simp [scrape_multiple_urls, hc, finallyStop_fst]
  · by_cases hs : σ.start_raises
    · simp [scrape_multiple_urls, hc, hs, finallyStop_fst]
    · have hfst := extract_and_save_fst_none_iff σ id urls output_file
      simp only [scrape_multiple_urls, hc, hs, Bool.false_eq_true, if_false]
      revert hfst
      rcases extract_and_save_clean_data_from_urls σ id urls output_file with
        ⟨o, evs⟩
      intro hfst
      simp only at hfst
      cases o with
      | none =>
        have ht : (faultTriggers σ urls || σ.save_raises) = true := hfst.mp rfl
        simp [finallyStop_fst, hc, hs, ht]
      | some rs =>
        have ht : (faultTriggers σ urls || σ.save_raises) = false := by
          rcases hb : (faultTriggers σ urls || σ.save_raises) with _ | _
          · rfl
          · exact absurd (hfst.mpr hb) (by simp)
        simp [finallyStop_fst, hc, hs, ht]

/-- C6: when resolving Targets from a source file, every line is stripped and
exactly the stripped lines beginning with the HTTP scheme prefix are kept as
Targets, in file order with duplicates preserved; all other lines (blank or
non-HTTP) are silently dropped. -/
theorem resolve_targets_strips_and_filters (lines : List String) :
    resolveTargets lines = (lines.map strip).filter hasHttpScheme :=
  resolveTargets_eq_strip_filter lines

/-- C2: for a source file none of whose stripped lines begins with the HTTP
scheme prefix (an empty file included), `scrape_from_file` returns failure with
a descriptive cause and makes no collaborator call at all, so no Session is
constructed or started. -/
theorem invalid_source_fails_without_session (σ : SessionOracle)
    (st : YouTubeScraperInterface) (id : Nat) (lines : List String)
    (file_path output_file : String)
    (h : ∀ l ∈ lines, hasHttpScheme (strip l) = false) :
    scrape_from_file σ st id (some lines) file_path output_file =
      (false, st, [], ["No valid YouTube URLs found in " ++ file_path]) := by
  have hr := resolveTargets_eq_nil lines h
  simp [scrape_from_file, hr]

/-- Witness for C2 at the spec's example source (two blank lines and a note
line). -/
theorem invalid_source_fails_without_session_witness :
    (∀ l ∈ ["", "", "note: not a url"], hasHttpScheme (strip l) = false) ∧
    scrape_from_file oracleOk (YouTubeScraperInterface.init true true) 0
        (some ["", "", "note: not a url"]) "urls.txt" "out.json" =
      (false, YouTubeScraperInterface.init true true, [],
        ["No valid YouTube URLs found in " ++ "urls.txt"]) :=
  ⟨by decide, invalid_source_fails_without_session oracleOk
    (YouTubeScraperInterface.init true true) 0 ["", "", "note: not a url"]
    "urls.txt" "out.json" (by decide)⟩

/-- C9: for a path that does not exist, `scrape_from_file` returns failure with
no collaborator call and without raising; it differs from the no-valid-URLs
case only in its message. -/
theorem missing_file_fails_without_session (σ : SessionOracle)
    (st : YouTubeScraperInterface) (id : Nat) (lines : List String)
    (file_path output_file : String)
    (h : ∀ l ∈ lines, hasHttpScheme (strip l) = false) :
    scrape_from_file σ st id none file_path output_file =
      (false, st, [], ["File not found: " ++ file_path]) ∧
    scrape_from_file σ st id (some lines) file_path output_file =
      (false, st, [], ["No valid YouTube URLs found in " ++ file_path]) ∧
    ("File not found: " ++ file_path) ≠
      ("No valid YouTube URLs found in " ++ file_path) := by
  refine ⟨rfl, ?_, ?_⟩
  · have hr := resolveTargets_eq_nil lines h
    simp [scrape_from_file, hr]
  · intro hcontra
    have hlen := congrArg String.length hcontra
    rw [String.length_append, String.length_append] at hlen
    have h1 : ("File not found: " : String).length = 16 := by decide
    have h2 : ("No valid YouTube URLs found in " : String).length = 31 := by
      decide
    omega

/-- Witness for C9 at a concrete missing path. -/
theorem missing_file_fails_without_session_witness :
    (∀ l ∈ ["note: not a url"], hasHttpScheme (strip l) = false) ∧
    (scrape_from_file oracleOk (YouTubeScraperInterface.init true true) 0 none
        "missing.txt" "out.json" =
      (false, YouTubeScraperInterface.init true true, [],
        ["File not found: " ++ "missing.txt"]) ∧
    scrape_from_file oracleOk (YouTubeScraperInterface.init true true) 0
        (some ["note: not a url"]) "missing.txt" "out.json" =
      (false, YouTubeScraperInterface.init true true, [],
        ["No valid YouTube URLs found in " ++ "missing.txt"]) ∧
    ("File not found: " ++ "missing.txt") ≠
      ("No valid YouTube URLs found in " ++ "missing.txt")) :=
  ⟨by decide, missing_file_fails_without_session oracleOk
    (YouTubeScraperInterface.init true true) 0 ["note: not a url"]
    "missing.txt" "out.json" (by decide)⟩

/-- C1: whenever extractor construction succeeds, `scrape_single_url` and
`scrape_multiple_urls` each invoke `stop` exactly once before returning, as the
final collaborator call, on every exit path: all Targets succeeding, extraction
failures, the session start raising, an unexpected fault mid-batch, and the
writer raising. -/
theorem session_stopped_exactly_once (σ : SessionOracle)
    (st : YouTubeScraperInterface) (id : Nat) (url output_file : String)
    (urls : List String) (h : σ.construct_raises = false) :
    ((scrape_single_url σ st id url output_file).2.2.countP isStop = 1 ∧
      (scrape_single_url σ st id url output_file).2.2.getLast? =
        some (Event.stop id)) ∧
    ((scrape_multiple_urls σ st id urls output_file).2.2.countP isStop = 1 ∧
      (scrape_multiple_urls σ st id urls output_file).2.2.getLast? =
        some (Event.stop id)) := by
  constructor
  · simp only [scrape_single_url, h, Bool.false_eq_true, if_false]
    split_ifs <;>
      simp [finallyStop, List.countP_append, List.countP_cons, isStop,
        List.getLast?_concat]
  · simp only [scrape_multiple_urls, h, Bool.false_eq_true, if_false]
    by_cases hs : σ.start_raises
    · simp [hs, finallyStop, List.countP_append, List.countP_cons, isStop,
        List.getLast?_concat]
    · simp only [hs, Bool.false_eq_true, if_false]
      have hstop := extract_and_save_countP_stop σ id urls output_file
      revert hstop
      rcases extract_and_save_clean_data_from_urls σ id urls output_file with
        ⟨o, evs⟩
      intro hstop
      simp only at hstop
      cases o <;>
        simp [finallyStop, List.countP_append, List.countP_cons, isStop, hstop,
          getLast?_cons_concat, List.getLast?_concat]

/-- Witness for C1 in the all-success environment. -/
theorem session_stopped_exactly_once_witness :
    oracleOk.construct_raises = false ∧
    (((scrape_single_url oracleOk (YouTubeScraperInterface.init true true) 0
          "https://a" "out.json").2.2.countP isStop = 1 ∧
      (scrape_single_url oracleOk (YouTubeScraperInterface.init true true) 0
          "https://a" "out.json").2.2.getLast? = some (Event.stop 0)) ∧
    ((scrape_multiple_urls oracleOk (YouTubeScraperInterface.init true true) 0
          ["https://a", "https://b"] "out.json").2.2.countP isStop = 1 ∧
      (scrape_multiple_urls oracleOk (YouTubeScraperInterface.init true true) 0
          ["https://a", "https://b"] "out.json").2.2.getLast? =
        some (Event.stop 0))) :=
  ⟨rfl, session_stopped_exactly_once oracleOk
    (YouTubeScraperInterface.init true true) 0 "https://a" "out.json"
    ["https://a", "https://b"] rfl⟩

/-- C3: `scrape_multiple_urls` reports failure exactly for batch-level faults
(construction or start raising, an unexpected fault mid-iteration, or the
writer raising); when no batch-level fault occurs the call succeeds even if
individual Targets fail extraction, the writer receives one record per Target
in input order, a raising Target's record carries an error, and a non-raising
Target's record is its extraction result unchanged. -/
theorem batch_failure_only_batch_level (σ : SessionOracle)
    (st : YouTubeScraperInterface) (id : Nat) (urls : List String)
    (output_file : String) :
    ((scrape_multiple_urls σ st id urls output_file).1 = false ↔
      batchFault σ urls = true) ∧
    (batchFault σ urls = false →
      ((scrape_multiple_urls σ st id urls output_file).1 = true ∧
        (scrape_multiple_urls σ st id urls output_file).2.2.filter isWrite =
          [Event.write (urls.map (recordFor σ)) output_file] ∧
        (∀ u, σ.extract_raises u = true →
          (recordFor σ u).error.isSome = true) ∧
        (∀ u, σ.extract_raises u = false →
          recordFor σ u = σ.extract_result u))) := by
  constructor
  · rw [scrape_multiple_urls_fst σ st id urls output_file]
    simp
  · intro hbf
    have hbf' := hbf
    simp only [batchFault, Bool.or_eq_false_iff] at hbf'
    obtain ⟨⟨⟨hc, hs⟩, hf⟩, hsv⟩ := hbf'
    have hext := extract_and_save_no_fault σ id urls output_file hf
    rw [hsv] at hext
    simp only [Bool.false_eq_true, if_false] at hext
    refine ⟨?_, ?_, ?_, ?_⟩
    · rw [scrape_multiple_urls_fst σ st id urls output_file, hbf]
      rfl
    · simp [scrape_multiple_urls, hc, hs, hext, finallyStop,
        List.filter_append, filter_write_map_extract, isWrite]
    · intro u hu
      simp [recordFor, hu]
    · intro u hu
      simp [recordFor, hu]

/-- Witness for C3 in an environment where exactly the Target `https://b` fails
extraction. -/
theorem batch_failure_only_batch_level_witness :
    batchFault oracleMixed ["https://a", "https://b"] = false ∧
    (scrape_multiple_urls oracleMixed (YouTubeScraperInterface.init true true) 0
        ["https://a", "https://b"] "out.json").1 = true ∧
    (scrape_multiple_urls oracleMixed (YouTubeScraperInterface.init true true) 0
        ["https://a", "https://b"] "out.json").2.2.filter isWrite =
      [Event.write (["https://a", "https://b"].map (recordFor oracleMixed))
        "out.json"] :=
  ⟨by decide,
   ((batch_failure_only_batch_level oracleMixed
      (YouTubeScraperInterface.init true true) 0 ["https://a", "https://b"]
      "out.json").2 (by decide)).1,
   ((batch_failure_only_batch_level oracleMixed
      (YouTubeScraperInterface.init true true) 0 ["https://a", "https://b"]
      "out.json").2 (by decide)).2.1⟩

/-- C4: for a non-empty Target list, a completed batch (construction and start
succeeded, no unexpected fault mid-iteration) hands the writer exactly one
ResultSet, with one record per Target — same length as the input, the i-th
record belonging to the i-th Target — regardless of the per-Target
success/failure mix. -/
theorem resultset_one_record_per_target (σ : SessionOracle)
    (st : YouTubeScraperInterface) (id : Nat) (urls : List String)
    (output_file : String) (_hne : urls ≠ [])
    (hc : σ.construct_raises = false) (hs : σ.start_raises = false)
    (hf : faultTriggers σ urls = false) :
    ∃ rs, (scrape_multiple_urls σ st id urls output_file).2.2.filter isWrite =
        [Event.write rs output_file] ∧
      rs.length = urls.length ∧
      ∀ i : Nat, rs[i]? = urls[i]?.map (recordFor σ) := by
  refine ⟨urls.map (recordFor σ), ?_, by simp,
    fun i => List.getElem?_map (recordFor σ) urls i⟩
  have hext := extract_and_save_no_fault σ id urls output_file hf
  by_cases hsv : σ.save_raises <;> simp only [hsv] at hext <;>
    simp [scrape_multiple_urls, hc, hs, hext, finallyStop, List.filter_append,
      filter_write_map_extract, isWrite]

/-- Witness for C4 on a two-Target list with one failing Target. -/
theorem resultset_one_record_per_target_witness :
    (["https://a", "https://b"] ≠ ([] : List String) ∧
      oracleMixed.construct_raises = false ∧
      oracleMixed.start_raises = false ∧
      faultTriggers oracleMixed ["https://a", "https://b"] = false) ∧
    ∃ rs, (scrape_multiple_urls oracleMixed
          (YouTubeScraperInterface.init true true) 0 ["https://a", "https://b"]
          "out.json").2.2.filter isWrite = [Event.write rs "out.json"] ∧
      rs.length = (["https://a", "https://b"] : List String).length ∧
      ∀ i : Nat, rs[i]? =
        (["https://a", "https://b"] : List String)[i]?.map
          (recordFor oracleMixed) :=
  ⟨⟨by decide, rfl, rfl, rfl⟩,
   resultset_one_record_per_target oracleMixed
     (YouTubeScraperInterface.init true true) 0 ["https://a", "https://b"]
     "out.json" (by decide) rfl rfl rfl⟩

/-- C5 counterexample: with a clean record but a raising writer, a step of
`scrape_single_url` raises and the call returns failure, yet the Output Writer
was invoked once — refuting the claim that the writer is never invoked whenever
any step raises. -/
theorem scrape_one_writer_counterexample :
    oracleSaveFails.save_raises = true ∧
    (scrape_single_url oracleSaveFails (YouTubeScraperInterface.init true true)
        0 "https://a" "out.json").1 = false ∧
    (scrape_single_url oracleSaveFails (YouTubeScraperInterface.init true true)
        0 "https://a" "out.json").2.2.countP isWrite = 1 :=
  ⟨rfl, by decide, by decide⟩

/-- C5 (amended): `scrape_single_url` returns failure with the writer never
invoked when the record is error-bearing or when construction, start, or the
extraction raises; when the record is clean its full trace is construct, start,
one extraction, one writer handoff of the single-element ResultSet, stop — and
the call succeeds if and only if the writer does not raise. -/
theorem scrape_one_writer_discipline (σ : SessionOracle)
    (st : YouTubeScraperInterface) (id : Nat) (url output_file : String) :
    ((σ.construct_raises || σ.start_raises || σ.extract_raises url ||
        (σ.extract_result url).error.isSome) = true →
      (scrape_single_url σ st id url output_file).1 = false ∧
        (scrape_single_url σ st id url output_file).2.2.countP isWrite = 0) ∧
    ((σ.construct_raises || σ.start_raises || σ.extract_raises url) = false →
      (σ.extract_result url).error = none →
      ((scrape_single_url σ st id url output_file).2.2 =
        [Event.construct id, Event.sessionStart id, Event.extract id url,
          Event.write [σ.extract_result url] output_file, Event.stop id] ∧
        ((scrape_single_url σ st id url output_file).1 = true ↔
          σ.save_raises = false))) := by
  constructor
  · intro h
    by_cases hc : σ.construct_raises
    · constructor
      · simp [scrape_single_url, hc, finallyStop_fst]
      · cases hst : st.extractor <;>
          simp [scrape_single_url, hc, finallyStop, hst, isWrite]
    · by_cases hs : σ.start_raises
      · constructor
        · simp [scrape_single_url, hc, hs, finallyStop_fst]
        · simp [scrape_single_url, hc, hs, finallyStop, List.countP_append,
            List.countP_cons, isWrite]
      · by_cases he : σ.extract_raises url
        · constructor
          · simp [scrape_single_url, hc, hs, he, finallyStop_fst]
          · simp [scrape_single_url, hc, hs, he, finallyStop,
              List.countP_append, List.countP_cons, isWrite]
        · have herr : (σ.extract_result url).error.isSome = true := by
            simp only [Bool.or_eq_true] at h
            rcases h with ((hx | hx) | hx) | hx
            · exact absurd hx hc
            · exact absurd hx hs
            · exact absurd hx he
            · exact hx
          constructor
          · simp [scrape_single_url, hc, hs, he, herr, finallyStop_fst]
          · simp [scrape_single_url, hc, hs, he, herr, finallyStop,
              List.countP_append, List.countP_cons, isWrite]
  · intro h he
    simp only [Bool.or_eq_false_iff] at h
    obtain ⟨⟨hc, hs⟩, hex⟩ := h
    by_cases hsv : σ.save_raises <;>
      simp [scrape_single_url, hc, hs, hex, he, hsv, finallyStop]

/-- Witness for C5 (amended), exercising the error-record branch and the clean
branch at concrete inputs. -/
theorem scrape_one_writer_discipline_witness :
    ((oracleErr.construct_raises || oracleErr.start_raises ||
        oracleErr.extract_raises "https://a" ||
        (oracleErr.extract_result "https://a").error.isSome) = true ∧
      (scrape_single_url oracleErr (YouTubeScraperInterface.init true true) 0
          "https://a" "out.json").1 = false ∧
      (scrape_single_url oracleErr (YouTubeScraperInterface.init true true) 0
          "https://a" "out.json").2.2.countP isWrite = 0) ∧
    ((scrape_single_url oracleOk (YouTubeScraperInterface.init true true) 0
          "https://a" "out.json").2.2 =
        [Event.construct 0, Event.sessionStart 0, Event.extract 0 "https://a",
          Event.write [oracleOk.extract_result "https://a"] "out.json",
          Event.stop 0] ∧
      ((scrape_single_url oracleOk (YouTubeScraperInterface.init true true) 0
          "https://a" "out.json").1 = true ↔ oracleOk.save_raises = false)) :=
  ⟨⟨by decide,
    (scrape_one_writer_discipline oracleErr
      (YouTubeScraperInterface.init true true) 0 "https://a" "out.json").1
      (by decide)⟩,
   (scrape_one_writer_discipline oracleOk
      (YouTubeScraperInterface.init true true) 0 "https://a" "out.json").2
      (by decide) (by decide)⟩

/-- C7 counterexample: the user-interrupt exit status equals the batch-failure
exit status (both are 1), so it is not a distinct non-zero status. -/
theorem exit_status_not_distinct :
    exit_status RunOutcome.interrupted =
      exit_status (RunOutcome.batchCompleted false) ∧
    exit_status RunOutcome.interrupted = 1 :=
  ⟨rfl, rfl⟩

/-- C7 (amended): a successful batch exits with status 0, a batch-level failure
with the non-zero status 1, and a user interrupt with the non-zero status 1 —
the same status as a batch failure, not a distinct one. -/
theorem exit_status_mapping :
    exit_status (RunOutcome.batchCompleted true) = 0 ∧
    exit_status (RunOutcome.batchCompleted false) = 1 ∧
    exit_status RunOutcome.interrupted = 1 ∧
    exit_status RunOutcome.interrupted ≠ 0 :=
  ⟨rfl, rfl, rfl, by decide⟩

/-- C8: with a deterministic session environment, running `scrape_single_url`
again with the same URL and destination, from the state the first call left
behind, returns the identical triple: same success flag, same state, same call
trace — hence structurally identical ResultSets. -/
theorem scrape_one_idempotent (σ : SessionOracle)
    (st : YouTubeScraperInterface) (id : Nat) (url output_file : String) :
    scrape_single_url σ (scrape_single_url σ st id url output_file).2.1 id url
        output_file =
      scrape_single_url σ st id url output_file := by
  by_cases hc : σ.construct_raises
  · cases hst : st.extractor <;>
      simp [scrape_single_url, hc, finallyStop, hst]
  · by_cases hs : σ.start_raises
    · simp [scrape_single_url, hc, hs, finallyStop]
    · by_cases he : σ.extract_raises url
      · simp [scrape_single_url, hc, hs, he, finallyStop]
      · by_cases herr : (σ.extract_result url).error.isSome
        · simp [scrape_single_url, hc, hs, he, herr, finallyStop]
        · by_cases hsv : σ.save_raises <;>
            simp [scrape_single_url, hc, hs, he, herr, hsv, finallyStop]

/-- C10: when extractor construction raises, the cleanup clause stops whatever
`self.extractor` currently references — nothing on a fresh interface, the stale
extractor of the previous batch on a reused one — in both `scrape_single_url`
and `scrape_multiple_urls`. -/
theorem cleanup_stops_current_extractor (σ : SessionOracle)
    (st : YouTubeScraperInterface) (id : Nat) (url output_file : String)
    (urls : List String) (h : σ.construct_raises = true) :
    (scrape_single_url σ st id url output_file).2.2 =
        stopEventsFor st.extractor ∧
    (scrape_multiple_urls σ st id urls output_file).2.2 =
        stopEventsFor st.extractor := by
  cases hst : st.extractor <;>
    simp [scrape_single_url, scrape_multiple_urls, h, finallyStop, hst,
      stopEventsFor]

/-- Witness for C10: a reused interface holding a stale extractor gets it
stopped; a fresh interface triggers no stop. -/
theorem cleanup_stops_current_extractor_witness :
    oracleConstructFails.construct_raises = true ∧
    (scrape_single_url oracleConstructFails
        ⟨true, true, some 5⟩ 7 "https://u" "o.json").2.2 = [Event.stop 5] ∧
    (scrape_multiple_urls oracleConstructFails
        ⟨true, true, some 5⟩ 7 ["https://u"] "o.json").2.2 = [Event.stop 5] ∧
    (scrape_single_url oracleConstructFails
        (YouTubeScraperInterface.init true true) 7 "https://u"
        "o.json").2.2 = [] :=
  ⟨rfl,
   (cleanup_stops_current_extractor oracleConstructFails ⟨true, true, some 5⟩ 7
     "https://u" "o.json" ["https://u"] rfl).1,
   (cleanup_stops_current_extractor oracleConstructFails ⟨true, true, some 5⟩ 7
     "https://u" "o.json" ["https://u"] rfl).2,
   (cleanup_stops_current_extractor oracleConstructFails
     (YouTubeScraperInterface.init true true) 7 "https://u" "o.json"
     ["https://u"] rfl).1⟩

end YTScraper
